import Mathlib

/-!
Verification of the kubectl-kanvas-snapshot manifest-submission pipeline.

The Go sources contain two variants of the submission/trigger logic:
the lenient variant (cmd/kanvas-snapshot/cmd.go, which degrades to an
offline identifier on failures) and the strict variant (an alternate
revision of the same file, which raises hard errors on the same
conditions).  Both are embedded below; definitions are direct
translations of the Go functions.
-/

namespace KanvasSnapshot

/-- Error codes of pkg/snapshot/errors/errors.go (one constructor per
meshkit error constructor). -/
inductive ErrCode where
  | decodingAPI            -- ErrDecodingAPI, code 1001
  | httpPostRequest        -- ErrHTTPPostRequest, code 1002
  | unexpectedResponseCode -- ErrUnexpectedResponseCode, code 1003
  | creatingMesheryDesign  -- ErrCreatingMesheryDesign, code 1004
  | invalidEmailFormat     -- ErrInvalidEmailFormat, code 1005
  | generatingSnapshot     -- ErrGeneratingSnapshot, code 1006
  | readingManifestFile    -- ErrReadingManifestFile, code 1007
deriving DecidableEq, Repr

/-- Outcome of running a Go function that can return a value, return an
error, or abort with a runtime panic.  The crash constructor models a Go
runtime panic (there is no recover() anywhere in the repository, so a
panic aborts the process). -/
inductive Outcome (α : Type) where
  | ok (a : α)
  | err (e : ErrCode)
  | crash
deriving DecidableEq, Repr

/-- JSON values, as produced by encoding/json Unmarshal into
interface\x7b\x7d: objects become map[string]interface\x7b\x7d, arrays
become []interface\x7b\x7d. Object field lists are assumed key-distinct
(a Go map cannot hold duplicate keys). -/
inductive JsonValue where
  | str (s : String)
  | num (n : Int)
  | bool (b : Bool)
  | null
  | arr (elems : List JsonValue)
  | obj (fields : List (String × JsonValue))

/-- Indexing a Go map[string]interface\x7b\x7d: the value stored under
the key, if present. A missing key yields the zero value nil, which the
model represents as none. -/
def jsonLookup : List (String × JsonValue) → String → Option JsonValue
  | [], _ => none
  | (k, v) :: rest, key => if k = key then some v else jsonLookup rest key

/-- A Go computation that either produces a value or aborts with a
runtime panic. -/
inductive GoResult (α : Type) where
  | ok (a : α)
  | crash
deriving DecidableEq, Repr

/-- The object-shaped branch of the design-ID extraction in
CreateMesheryDesign (cmd.go lines 280-294, identical in the strict
variant).  Mirrors the Go if/else-if chain:

  if id, ok := responseData["id"].(string); ok \x7b ... \x7d
  else if id, ok := responseData["pattern_file"].(map[string]interface\x7b\x7d)["id"].(string); ok \x7b ... \x7d
  else if id, ok := responseData["pattern_id"].(string); ok \x7b ... \x7d

The comma-ok form protects only the outermost .(string) assertions; the
inner .(map[string]interface\x7b\x7d) assertion is single-valued, so it
panics whenever the pattern_file entry is absent, null, or not an
object.  designID stays "" when no branch fires. -/
def extractIDFromObject (fields : List (String × JsonValue)) : GoResult String :=
  match jsonLookup fields "id" with
  | some (JsonValue.str id) => GoResult.ok id
  | _ =>
    match jsonLookup fields "pattern_file" with
    | some (JsonValue.obj pf) =>
      match jsonLookup pf "id" with
      | some (JsonValue.str id) => GoResult.ok id
      | _ =>
        match jsonLookup fields "pattern_id" with
        | some (JsonValue.str id) => GoResult.ok id
        | _ => GoResult.ok ""
    | _ => GoResult.crash

/-- The array-shaped branch of the design-ID extraction
(cmd.go lines 270-279): if the array is non-empty and its first element
is an object with a string "id" field, take it; otherwise designID
stays "".  All assertions here use the comma-ok form, so no panic. -/
def extractIDFromArray (elems : List JsonValue) : String :=
  match elems with
  | JsonValue.obj fields :: _ =>
    match jsonLookup fields "id" with
    | some (JsonValue.str id) => id
    | _ => ""
  | _ => ""

/-- Response-body resolution of CreateMesheryDesign (cmd.go lines
256-303): first Unmarshal into map[string]interface\x7b\x7d, on failure
retry as []interface\x7b\x7d.  The argument is the parse result of the
body: some v when the body is valid JSON with value v, none otherwise.
Unmarshal of the JSON literal null into a map or slice succeeds with a
nil (empty) value, hence the null case.  Returns some designID when an
object/array parse succeeded (designID possibly ""), none when both
Unmarshal calls failed, or crash for the panic described at
extractIDFromObject. -/
def resolveDesignID (json : Option JsonValue) : GoResult (Option String) :=
  match json with
  | some (JsonValue.obj fields) =>
    match extractIDFromObject fields with
    | GoResult.ok id => GoResult.ok (some id)
    | GoResult.crash => GoResult.crash
  | some JsonValue.null =>
    match extractIDFromObject [] with
    | GoResult.ok id => GoResult.ok (some id)
    | GoResult.crash => GoResult.crash
  | some (JsonValue.arr elems) => GoResult.ok (some (extractIDFromArray elems))
  | _ => GoResult.ok none

/-- strings.Contains, on the character lists of the strings. -/
def containsSubstr (s pat : String) : Bool :=
  decide (List.IsInfix pat.data s.data)

/-- The HTML-marker check of CreateMesheryDesign (cmd.go line 237):
strings.Contains(body, "<!DOCTYPE html>") or strings.Contains(body, "<html"). -/
def containsHtmlMarker (body : String) : Bool :=
  containsSubstr body "<!DOCTYPE html>" || containsSubstr body "<html"

/-- A wall-clock instant as carried by a Go time.Time, split into the
fields read by Format("20060102150405") plus the sub-second component
that the format discards. -/
structure GoTime where
  year : Nat
  month : Nat
  day : Nat
  hour : Nat
  minute : Nat
  second : Nat
  nanos : Nat
deriving DecidableEq, Repr

/-- The field values a real time.Time produces for the layout
"20060102150405" (time.Now() always satisfies these bounds). -/
def ValidGoTime (t : GoTime) : Prop :=
  t.year ≤ 9999 ∧ t.month ≤ 12 ∧ t.day ≤ 31 ∧
  t.hour ≤ 23 ∧ t.minute ≤ 59 ∧ t.second ≤ 59

/-- Zero-padded two-digit decimal field of Go time formatting (layout
fields "01", "02", "15", "04", "05"); exact for the in-range values a
time.Time carries. -/
def pad2 (n : Nat) : String :=
  ⟨[Nat.digitChar (n / 10), Nat.digitChar (n % 10)]⟩

/-- Zero-padded four-digit year field of Go time formatting (layout
field "2006"); exact for years 0-9999, which covers every time.Now()
result. -/
def pad4 (n : Nat) : String :=
  ⟨[Nat.digitChar (n / 1000), Nat.digitChar (n / 100 % 10),
    Nat.digitChar (n / 10 % 10), Nat.digitChar (n % 10)]⟩

/-- time.Now().Format("20060102150405") (cmd.go line 310): a 14-digit
second-resolution timestamp; the nanosecond field is discarded. -/
def formatTimestamp (t : GoTime) : String :=
  pad4 t.year ++ pad2 t.month ++ pad2 t.day ++
    pad2 t.hour ++ pad2 t.minute ++ pad2 t.second

/-- strings.ReplaceAll(name, " ", "-") (cmd.go line 312).  For a
single-character pattern and replacement this is exactly a character
map. -/
def replaceSpaces (name : String) : String :=
  ⟨name.data.map (fun c => if c = ' ' then '-' else c)⟩

/-- The safeName computation inside generateDummyID (cmd.go lines
312-315): replace spaces with hyphens, substitute "design" when the
result is empty. -/
def sanitizeDesignName (name : String) : String :=
  let safeName := replaceSpaces name
  if safeName = "" then "design" else safeName

/-- generateDummyID (cmd.go lines 308-317).  The clock reading is an
explicit argument; the Go function reads time.Now(). -/
def generateDummyID (name : String) (now : GoTime) : String :=
  "offline-mode-" ++ sanitizeDesignName name ++ "-" ++ formatTimestamp now

/-- A completed HTTP exchange of the design submission: the response
status, the raw response body, and the result of Go json.Unmarshal on
that body (some v when the body is valid JSON with value v, none when
it is not valid JSON). -/
structure SubmitResponse where
  status : Nat
  rawBody : String
  json : Option JsonValue

/-- CreateMesheryDesign, lenient variant (cmd.go lines 162-306),
starting at the outbound POST: the resp argument is none when the
transport-level call fails (cannot connect, or the fixed 30-second
client timeout fires), otherwise the completed exchange.  Payload
marshalling and request construction cannot fail for the inputs the
program builds and are not modelled; reading the body is assumed to
succeed.  On transport failure, an HTML body, a status other than
200/201, an unparseable body, or an extracted empty ID, the function
logs and returns generateDummyID(name) with a nil error. -/
def CreateMesheryDesign (name : String) (now : GoTime)
    (resp : Option SubmitResponse) : Outcome String :=
  match resp with
  | none => Outcome.ok (generateDummyID name now)
  | some r =>
    if containsHtmlMarker r.rawBody then
      Outcome.ok (generateDummyID name now)
    else if r.status ≠ 200 ∧ r.status ≠ 201 then
      Outcome.ok (generateDummyID name now)
    else
      match resolveDesignID r.json with
      | GoResult.crash => Outcome.crash
      | GoResult.ok none => Outcome.ok (generateDummyID name now)
      | GoResult.ok (some id) =>
        if id = "" then Outcome.ok (generateDummyID name now)
        else Outcome.ok id

/-- CreateMesheryDesign, strict variant (the alternate revision of
cmd.go, lines 159-293): identical control flow, but every degraded path
returns a hard error instead of an offline identifier — transport
failure, HTML body and bad status return ErrHTTPPostRequest; an
unparseable body or an empty extracted ID return ErrDecodingAPI. -/
def CreateMesheryDesignStrict (resp : Option SubmitResponse) : Outcome String :=
  match resp with
  | none => Outcome.err ErrCode.httpPostRequest
  | some r =>
    if containsHtmlMarker r.rawBody then
      Outcome.err ErrCode.httpPostRequest
    else if r.status ≠ 200 ∧ r.status ≠ 201 then
      Outcome.err ErrCode.httpPostRequest
    else
      match resolveDesignID r.json with
      | GoResult.crash => Outcome.crash
      | GoResult.ok none => Outcome.err ErrCode.decodingAPI
      | GoResult.ok (some id) =>
        if id = "" then Outcome.err ErrCode.decodingAPI
        else Outcome.ok id

/-- strings.HasPrefix, on the character lists of the strings. -/
def strStartsWith (s pat : String) : Bool :=
  pat.data.isPrefixOf s.data

/-- The one outbound workflow-dispatch POST GenerateSnapshot can make:
the GitHub API URL it is sent to and the inputs map of its JSON body. -/
structure DispatchCall where
  url : String
  designID : String
  assetLocation : String
deriving DecidableEq, Repr

/-- GenerateSnapshot, lenient variant (cmd.go lines 328-437).  The
dispatchResp argument is what the network returns if and when the
dispatch call is made: none for a transport failure, some s for a
response with status s.  The first component of the result is the list
of outbound HTTP calls performed, in order; the second is the returned
error. Offline-prefixed identifiers and an empty token short-circuit
before any call.  repoOwner, repoName and workflowID are the package
flag variables, defaulted when empty. -/
def GenerateSnapshot (designID assetLocation token : String)
    (repoOwner repoName workflowID : String)
    (dispatchResp : Option Nat) : List DispatchCall × Option ErrCode :=
  if strStartsWith designID "offline-mode-" then
    ([], none)
  else if token = "" then
    ([], none)
  else
    let repoOwnerValue := if repoOwner = "" then "layer5labs" else repoOwner
    let repoNameValue := if repoName = "" then "kubectl-kanvas-snapshot" else repoName
    let workflowIDValue := if workflowID = "" then "kanvas.yaml" else workflowID
    let assetLocationValue :=
      if assetLocation = "" then
        "https://raw.githubusercontent.com/layer5labs/meshery-extensions-packages/master/action-assets/kubectl-plugin-assets/"
          ++ designID ++ ".png"
      else assetLocation
    let apiURL := "https://api.github.com/repos/" ++ repoOwnerValue ++ "/"
      ++ repoNameValue ++ "/actions/workflows/" ++ workflowIDValue ++ "/dispatches"
    let call : DispatchCall := ⟨apiURL, designID, assetLocationValue⟩
    match dispatchResp with
    | none => ([call], some ErrCode.generatingSnapshot)
    | some s =>
      if s ≠ 204 ∧ s ≠ 200 then ([call], some ErrCode.generatingSnapshot)
      else ([call], none)

/-- GenerateSnapshot, strict variant (the alternate revision of cmd.go,
lines 304-399): identical except that it has no offline-identifier
short-circuit — only the empty-token check precedes the dispatch
call. -/
def GenerateSnapshotStrict (designID assetLocation token : String)
    (repoOwner repoName workflowID : String)
    (dispatchResp : Option Nat) : List DispatchCall × Option ErrCode :=
  if token = "" then
    ([], none)
  else
    let repoOwnerValue := if repoOwner = "" then "layer5labs" else repoOwner
    let repoNameValue := if repoName = "" then "kubectl-kanvas-snapshot" else repoName
    let workflowIDValue := if workflowID = "" then "kanvas.yaml" else workflowID
    let assetLocationValue :=
      if assetLocation = "" then
        "https://raw.githubusercontent.com/layer5labs/meshery-extensions-packages/master/action-assets/kubectl-plugin-assets/"
          ++ designID ++ ".png"
      else assetLocation
    let apiURL := "https://api.github.com/repos/" ++ repoOwnerValue ++ "/"
      ++ repoNameValue ++ "/actions/workflows/" ++ workflowIDValue ++ "/dispatches"
    let call : DispatchCall := ⟨apiURL, designID, assetLocationValue⟩
    match dispatchResp with
    | none => ([call], some ErrCode.generatingSnapshot)
    | some s =>
      if s ≠ 204 ∧ s ≠ 200 then ([call], some ErrCode.generatingSnapshot)
      else ([call], none)

/-- The returned error of a dispatch attempt, as a function of the
network answer, once the two short-circuits are ruled out. -/
def dispatchError (dispatchResp : Option Nat) : Option ErrCode :=
  match dispatchResp with
  | none => some ErrCode.generatingSnapshot
  | some s =>
    if s ≠ 204 ∧ s ≠ 200 then some ErrCode.generatingSnapshot else none

/-- A file-system subtree: what filepath.Walk traverses below a
directory.  The entry list of a directory is kept in the order Walk
visits it (lexical order of names); file contents stand for what
os.ReadFile returns (all files are assumed readable). -/
inductive FSEntry where
  | file (name : String) (content : String)
  | dir (name : String) (entries : List FSEntry)

/-- strings.ToLower, on the character list (the paths involved are
ASCII; Char.toLower agrees with Go on ASCII). -/
def toLowerStr (s : String) : String :=
  ⟨s.data.map Char.toLower⟩

/-- strings.HasSuffix, on the character lists of the strings. -/
def strEndsWith (s pat : String) : Bool :=
  pat.data.isSuffixOf s.data

/-- The YAML-file test of processDirectory (cmd.go line 131):
strings.HasSuffix(strings.ToLower(path), ".yaml") or
strings.HasSuffix(strings.ToLower(path), ".yml"). -/
def isYamlPath (path : String) : Bool :=
  strEndsWith (toLowerStr path) ".yaml" || strEndsWith (toLowerStr path) ".yml"

/-- The filepath.Walk traversal of processDirectory (cmd.go lines
113-144), below an already-visited directory dirPath.  Walk calls
walkFn on each entry in order, path = dirPath/name; for a directory
entry walkFn returns filepath.SkipDir when recursive is false (the
subtree is skipped without error) and nil otherwise (the subtree is
walked); a file entry is appended when its path passes the YAML test. -/
def walkEntries (recursive : Bool) (dirPath : String) : List FSEntry → List String
  | [] => []
  | FSEntry.file name content :: rest =>
    (if isYamlPath (dirPath ++ "/" ++ name) then [content] else [])
      ++ walkEntries recursive dirPath rest
  | FSEntry.dir name sub :: rest =>
    (if recursive then walkEntries recursive (dirPath ++ "/" ++ name) sub else [])
      ++ walkEntries recursive dirPath rest

/-- processDirectory (cmd.go lines 113-144): walkFn on the root
directory itself returns nil (it is neither skipped nor collected),
then the entries are walked. -/
def processDirectory (dirPath : String) (entries : List FSEntry)
    (recursive : Bool) : List String :=
  walkEntries recursive dirPath entries

/-- What os.Stat finds at the path given to getManifestContents. -/
inductive PathKind where
  | file (content : String)
  | directory (entries : List FSEntry)
  | missing

/-- getManifestContents (cmd.go lines 85-110).  A failing os.Stat is
ErrReadingManifestFile; a directory is walked by processDirectory and
an empty result is ErrReadingManifestFile ("no YAML files found in the
specified directory"); a plain file is read whole regardless of its
extension.  Unreadable files are not modelled (every modelled file
carries its content). -/
def getManifestContents (path : String) (k : PathKind)
    (recursive : Bool) : Except ErrCode (List String) :=
  match k with
  | PathKind.missing => Except.error ErrCode.readingManifestFile
  | PathKind.directory entries =>
    let manifests := processDirectory path entries recursive
    if manifests.length = 0 then Except.error ErrCode.readingManifestFile
    else Except.ok manifests
  | PathKind.file content => Except.ok [content]

/-- The root-level YAML matches of a directory: the contents of its
file entries whose path passes the YAML test, in entry order, with
directory entries contributing nothing.  (Spec-side description of the
non-recursive traversal, to be compared with walkEntries.) -/
def rootYamlMatches (dirPath : String) : List FSEntry → List String
  | [] => []
  | FSEntry.file name content :: rest =>
    (if isYamlPath (dirPath ++ "/" ++ name) then [content] else [])
      ++ rootYamlMatches dirPath rest
  | FSEntry.dir _ _ :: rest => rootYamlMatches dirPath rest

/-- Character class [a-z0-9._%+\-] of the local part of emailRegex
(cmd.go line 59). -/
def emailLocalChar (c : Char) : Bool :=
  decide ((97 ≤ c.toNat ∧ c.toNat ≤ 122) ∨ (48 ≤ c.toNat ∧ c.toNat ≤ 57) ∨
    c = '.' ∨ c = '_' ∨ c = '%' ∨ c = '+' ∨ c = '-')

/-- Character class [a-z0-9.\-] of the domain part of emailRegex. -/
def emailDomainChar (c : Char) : Bool :=
  decide ((97 ≤ c.toNat ∧ c.toNat ≤ 122) ∨ (48 ≤ c.toNat ∧ c.toNat ≤ 57) ∨
    c = '.' ∨ c = '-')

/-- Character class [a-z] of the trailing \.[a-z]\x7b2,\x7d of
emailRegex. -/
def emailTldChar (c : Char) : Bool :=
  decide (97 ≤ c.toNat ∧ c.toNat ≤ 122)

/-- Whether ds is in the language [a-z0-9.\-]+\.[a-z]\x7b2,\x7d: some
split position i holds the separating dot, with a non-empty all-domain
prefix before it and at least two all-[a-z] characters after it. -/
def matchDomainTail (ds : List Char) : Bool :=
  (List.range ds.length).any fun i =>
    (ds.getD i ' ' == '.') && !(ds.take i).isEmpty && (ds.take i).all emailDomainChar
      && decide (2 ≤ (ds.drop (i + 1)).length) && (ds.drop (i + 1)).all emailTldChar

/-- emailRegex.MatchString (cmd.go lines 59 and 622-625): whole-string
match of ^[a-z0-9._%+\-]+@[a-z0-9.\-]+\.[a-z]\x7b2,\x7d$.  No character
class of the regex contains the at sign, so in any match the separator
is the first at sign of the string; the local part is everything before
it and must be non-empty and all-local, and the rest must be in the
domain language. -/
def isValidEmail (email : String) : Bool :=
  let cs := email.data
  let localPart := cs.takeWhile (fun c => !(c == '@'))
  match cs.dropWhile (fun c => !(c == '@')) with
  | [] => false
  | a :: ds =>
    (a == '@') && !localPart.isEmpty && localPart.all emailLocalChar
      && matchDomainTail ds

/-- An ASCII uppercase letter (A-Z), the characters the claim about
emailRegex is about. -/
def isAsciiUpper (c : Char) : Bool :=
  decide (65 ≤ c.toNat ∧ c.toNat ≤ 90)

/-! ## Helper lemmas -/

lemma digitChar_isDigit : ∀ d : Nat, d ≤ 9 → (Nat.digitChar d).isDigit = true := by
  decide

lemma replaceSpaces_no_space (name : String) :
    ∀ c ∈ (replaceSpaces name).data, c ≠ ' ' := by
  intro c hc
  simp only [replaceSpaces, List.mem_map] at hc
  obtain ⟨c₀, _, hc₀⟩ := hc
  by_cases h : c₀ = ' '
  · simp [h] at hc₀
    simp [← hc₀]
  · simp [h] at hc₀
    simp [← hc₀, h]

/-! ## C2: transport failure degrades to an offline identifier -/

/-- C2.  When the outbound POST fails at the transport level, the
lenient CreateMesheryDesign returns a nil error together with the
offline identifier offline-mode-(sanitized name)-(14-digit timestamp):
the identifier decomposes under the offline prefix, and its timestamp
part has exactly 14 characters, all decimal digits. -/
theorem createMesheryDesign_offline_on_transport_failure
    (name : String) (t : GoTime) (h : ValidGoTime t) :
    CreateMesheryDesign name t none = Outcome.ok (generateDummyID name t) ∧
    generateDummyID name t =
      "offline-mode-" ++ sanitizeDesignName name ++ "-" ++ formatTimestamp t ∧
    (formatTimestamp t).length = 14 ∧
    (formatTimestamp t).data.all Char.isDigit = true := by
  obtain ⟨hy, hmo, hd, hh, hmi, hs⟩ := h
  refine ⟨rfl, rfl, rfl, ?_⟩
  show List.all
    [Nat.digitChar (t.year / 1000), Nat.digitChar (t.year / 100 % 10),
     Nat.digitChar (t.year / 10 % 10), Nat.digitChar (t.year % 10),
     Nat.digitChar (t.month / 10), Nat.digitChar (t.month % 10),
     Nat.digitChar (t.day / 10), Nat.digitChar (t.day % 10),
     Nat.digitChar (t.hour / 10), Nat.digitChar (t.hour % 10),
     Nat.digitChar (t.minute / 10), Nat.digitChar (t.minute % 10),
     Nat.digitChar (t.second / 10), Nat.digitChar (t.second % 10)]
    Char.isDigit = true
  simp only [List.all_cons, List.all_nil, Bool.and_eq_true, and_true]
  refine ⟨?_, ?_, ?_, ?_, ?_, ?_, ?_, ?_, ?_, ?_, ?_, ?_, ?_, ?_⟩ <;>
    exact digitChar_isDigit _ (by omega)

/-- Witness for C2 at a concrete name and clock reading. -/
theorem createMesheryDesign_offline_on_transport_failure_witness :
    CreateMesheryDesign "my design" ⟨2025, 10, 11, 21, 15, 30, 7⟩ none
      = Outcome.ok (generateDummyID "my design" ⟨2025, 10, 11, 21, 15, 30, 7⟩) :=
  (createMesheryDesign_offline_on_transport_failure "my design"
    ⟨2025, 10, 11, 21, 15, 30, 7⟩ (by simp [ValidGoTime])).1

/-! ## C9: offline identifier generation is deterministic per second -/

/-- C9.  generateDummyID depends only on the name and the wall-clock
second (two calls within the same second with the same name agree, the
nanosecond field being irrelevant); every space of the name is replaced
by a hyphen (the sanitized part contains no space), the empty name is
replaced by "design", and the result is the offline prefix, the
sanitized name and the 14-digit timestamp joined by hyphens. -/
theorem generateDummyID_deterministic_sanitized
    (name : String) (t u : GoTime)
    (hy : t.year = u.year) (hmo : t.month = u.month) (hd : t.day = u.day)
    (hh : t.hour = u.hour) (hmi : t.minute = u.minute) (hs : t.second = u.second) :
    generateDummyID name t = generateDummyID name u ∧
    generateDummyID name t =
      "offline-mode-" ++ sanitizeDesignName name ++ "-" ++ formatTimestamp t ∧
    (∀ c ∈ (sanitizeDesignName name).data, c ≠ ' ') ∧
    sanitizeDesignName "" = "design" := by
  refine ⟨?_, rfl, ?_, rfl⟩
  · unfold generateDummyID formatTimestamp
    rw [hy, hmo, hd, hh, hmi, hs]
  · intro c hc
    unfold sanitizeDesignName at hc
    by_cases h : replaceSpaces name = ""
    · simp only [h, if_pos rfl] at hc
      intro hsp
      rw [hsp] at hc
      simp at hc
    · simp only [if_neg h] at hc
      exact replaceSpaces_no_space name c hc

/-- Witness for C9: the same name at two instants inside the same
second (differing nanoseconds) yields the same identifier. -/
theorem generateDummyID_deterministic_sanitized_witness :
    generateDummyID "a b" ⟨2025, 10, 11, 21, 15, 30, 1⟩
      = generateDummyID "a b" ⟨2025, 10, 11, 21, 15, 30, 999999⟩ :=
  (generateDummyID_deterministic_sanitized "a b"
    ⟨2025, 10, 11, 21, 15, 30, 1⟩ ⟨2025, 10, 11, 21, 15, 30, 999999⟩
    rfl rfl rfl rfl rfl rfl).1

/-! ## C1: response-shape probing of the design identifier -/

/-- C1.  Evaluation of CreateMesheryDesign (both variants) on the three
response shapes of the claim, at statuses 200 and 201.  The bodies
\x7b"id": "abc123"\x7d and \x7b"pattern_file": \x7b"id": "abc123"\x7d\x7d
resolve to "abc123" with no error, but \x7b"pattern_id": "abc123"\x7d
does not: reaching the pattern_id probe evaluates the single-value type
assertion responseData["pattern_file"].(map[string]interface\x7b\x7d)
on a nil entry, which panics at runtime, so the claimed priority-order
fallback to pattern_id never fires for that body. -/
theorem createMesheryDesign_response_shapes :
    (CreateMesheryDesign "web-app" ⟨2025, 10, 11, 12, 0, 0, 0⟩
      (some ⟨200, "\x7b\"id\": \"abc123\"\x7d",
        some (JsonValue.obj [("id", JsonValue.str "abc123")])⟩)
      = Outcome.ok "abc123") ∧
    (CreateMesheryDesign "web-app" ⟨2025, 10, 11, 12, 0, 0, 0⟩
      (some ⟨201, "\x7b\"id\": \"abc123\"\x7d",
        some (JsonValue.obj [("id", JsonValue.str "abc123")])⟩)
      = Outcome.ok "abc123") ∧
    (CreateMesheryDesign "web-app" ⟨2025, 10, 11, 12, 0, 0, 0⟩
      (some ⟨200, "\x7b\"pattern_file\": \x7b\"id\": \"abc123\"\x7d\x7d",
        some (JsonValue.obj
          [("pattern_file", JsonValue.obj [("id", JsonValue.str "abc123")])])⟩)
      = Outcome.ok "abc123") ∧
    (CreateMesheryDesign "web-app" ⟨2025, 10, 11, 12, 0, 0, 0⟩
      (some ⟨201, "\x7b\"pattern_file\": \x7b\"id\": \"abc123\"\x7d\x7d",
        some (JsonValue.obj
          [("pattern_file", JsonValue.obj [("id", JsonValue.str "abc123")])])⟩)
      = Outcome.ok "abc123") ∧
    (CreateMesheryDesign "web-app" ⟨2025, 10, 11, 12, 0, 0, 0⟩
      (some ⟨200, "\x7b\"pattern_id\": \"abc123\"\x7d",
        some (JsonValue.obj [("pattern_id", JsonValue.str "abc123")])⟩)
      = Outcome.crash) ∧
    (CreateMesheryDesign "web-app" ⟨2025, 10, 11, 12, 0, 0, 0⟩
      (some ⟨201, "\x7b\"pattern_id\": \"abc123\"\x7d",
        some (JsonValue.obj [("pattern_id", JsonValue.str "abc123")])⟩)
      = Outcome.crash) ∧
    (CreateMesheryDesignStrict
      (some ⟨200, "\x7b\"id\": \"abc123\"\x7d",
        some (JsonValue.obj [("id", JsonValue.str "abc123")])⟩)
      = Outcome.ok "abc123") ∧
    (CreateMesheryDesignStrict
      (some ⟨200, "\x7b\"pattern_file\": \x7b\"id\": \"abc123\"\x7d\x7d",
        some (JsonValue.obj
          [("pattern_file", JsonValue.obj [("id", JsonValue.str "abc123")])])⟩)
      = Outcome.ok "abc123") ∧
    (CreateMesheryDesignStrict
      (some ⟨200, "\x7b\"pattern_id\": \"abc123\"\x7d",
        some (JsonValue.obj [("pattern_id", JsonValue.str "abc123")])⟩)
      = Outcome.crash) := by
  decide

/-! ## C4: HTML response bodies -/

/-- C4.  A response body containing an HTML marker is treated as an
authentication redirect before any JSON probing and regardless of the
status: the lenient variant returns the offline identifier with a nil
error and the strict variant returns ErrHTTPPostRequest; the result is
the same for every possible parse of the body, so no JSON identifier
extraction takes part in it. -/
theorem createMesheryDesign_html_response
    (name : String) (t : GoTime) (status : Nat) (raw : String)
    (json : Option JsonValue) (h : containsHtmlMarker raw = true) :
    CreateMesheryDesign name t (some ⟨status, raw, json⟩)
      = Outcome.ok (generateDummyID name t) ∧
    CreateMesheryDesignStrict (some ⟨status, raw, json⟩)
      = Outcome.err ErrCode.httpPostRequest := by
  unfold CreateMesheryDesign CreateMesheryDesignStrict
  simp [h]

/-- Witness for C4: both variants on the same concrete HTML fixture,
whose parse field even carries an extractable id that is ignored. -/
theorem createMesheryDesign_html_response_witness :
    CreateMesheryDesign "app" ⟨2025, 1, 1, 0, 0, 0, 0⟩
      (some ⟨200, "<!DOCTYPE html><html><body>login</body></html>",
        some (JsonValue.obj [("id", JsonValue.str "zzz")])⟩)
      = Outcome.ok (generateDummyID "app" ⟨2025, 1, 1, 0, 0, 0, 0⟩) ∧
    CreateMesheryDesignStrict
      (some ⟨200, "<!DOCTYPE html><html><body>login</body></html>",
        some (JsonValue.obj [("id", JsonValue.str "zzz")])⟩)
      = Outcome.err ErrCode.httpPostRequest :=
  createMesheryDesign_html_response "app" ⟨2025, 1, 1, 0, 0, 0, 0⟩ 200
    "<!DOCTYPE html><html><body>login</body></html>"
    (some (JsonValue.obj [("id", JsonValue.str "zzz")])) (by decide)

/-! ## C3: offline identifiers short-circuit the snapshot trigger -/

/-- C3.  For every identifier carrying the offline-mode- prefix,
GenerateSnapshot performs no outbound HTTP call and returns a nil
error, whatever the asset location, the token, the flag values and
whatever the network would have answered. -/
theorem generateSnapshot_offline_short_circuit
    (designID assetLocation token repoOwner repoName workflowID : String)
    (dispatchResp : Option Nat)
    (h : strStartsWith designID "offline-mode-" = true) :
    GenerateSnapshot designID assetLocation token repoOwner repoName workflowID
      dispatchResp = ([], none) := by
  unfold GenerateSnapshot
  simp [h]

/-- Witness for C3 at a concrete offline identifier, non-empty token
and a network that would have answered 500. -/
theorem generateSnapshot_offline_short_circuit_witness :
    GenerateSnapshot "offline-mode-demo-20250101000000" "loc" "token"
      "owner" "repo" "wf.yaml" (some 500) = ([], none) :=
  generateSnapshot_offline_short_circuit "offline-mode-demo-20250101000000"
    "loc" "token" "owner" "repo" "wf.yaml" (some 500) (by decide)

/-! ## C5: empty access token short-circuits the snapshot trigger -/

/-- C5.  For every design identifier, calling either variant of
GenerateSnapshot with an empty access token performs no outbound HTTP
call and returns a nil error. -/
theorem generateSnapshot_empty_token_noop
    (designID assetLocation repoOwner repoName workflowID : String)
    (dispatchResp : Option Nat) :
    GenerateSnapshot designID assetLocation "" repoOwner repoName workflowID
      dispatchResp = ([], none) ∧
    GenerateSnapshotStrict designID assetLocation "" repoOwner repoName workflowID
      dispatchResp = ([], none) := by
  constructor
  · unfold GenerateSnapshot
    split
    · rfl
    · simp
  · unfold GenerateSnapshotStrict
    simp

/-! ## C6: the snapshot trigger fails exactly on a failed dispatch -/

lemma generateSnapshot_dispatch_snd
    (designID assetLocation token repoOwner repoName workflowID : String)
    (dispatchResp : Option Nat)
    (hoff : strStartsWith designID "offline-mode-" = false) (htok : token ≠ "") :
    (GenerateSnapshot designID assetLocation token repoOwner repoName
      workflowID dispatchResp).2 = dispatchError dispatchResp := by
  unfold GenerateSnapshot dispatchError
  simp only [hoff, Bool.false_eq_true, if_false, if_neg htok]
  cases dispatchResp with
  | none => rfl
  | some s =>
    by_cases h : s ≠ 204 ∧ s ≠ 200
    · simp only [if_pos h]
    · simp only [if_neg h]

lemma generateSnapshotStrict_dispatch_snd
    (designID assetLocation token repoOwner repoName workflowID : String)
    (dispatchResp : Option Nat) (htok : token ≠ "") :
    (GenerateSnapshotStrict designID assetLocation token repoOwner repoName
      workflowID dispatchResp).2 = dispatchError dispatchResp := by
  unfold GenerateSnapshotStrict dispatchError
  simp only [if_neg htok]
  cases dispatchResp with
  | none => rfl
  | some s =>
    by_cases h : s ≠ 204 ∧ s ≠ 200
    · simp only [if_pos h]
    · simp only [if_neg h]

lemma dispatchError_eq_none_iff (dispatchResp : Option Nat) :
    (dispatchError dispatchResp = none ↔
      (dispatchResp = some 200 ∨ dispatchResp = some 204)) ∧
    (dispatchError dispatchResp = some ErrCode.generatingSnapshot ↔
      (dispatchResp = none ∨
        ∃ s, dispatchResp = some s ∧ s ≠ 200 ∧ s ≠ 204)) := by
  cases dispatchResp with
  | none => simp [dispatchError]
  | some s =>
    unfold dispatchError
    by_cases h : s ≠ 204 ∧ s ≠ 200
    · simp only [if_pos h]
      constructor
      · simp
        omega
      · simp
        omega
    · simp only [if_neg h]
      constructor
      · simp
        omega
      · simp
        omega

/-- C6.  With a non-offline identifier and a non-empty token, both
variants of GenerateSnapshot make the dispatch call and return a nil
error exactly when the call completes with status 200 or 204; the only
error they ever return is ErrGeneratingSnapshot (SnapshotTriggerError),
produced exactly when the call cannot be made or completes with any
other status. -/
theorem generateSnapshot_error_iff_dispatch_fails
    (designID assetLocation token repoOwner repoName workflowID : String)
    (dispatchResp : Option Nat)
    (hoff : strStartsWith designID "offline-mode-" = false) (htok : token ≠ "") :
    ((GenerateSnapshot designID assetLocation token repoOwner repoName
        workflowID dispatchResp).2 = none ↔
      (dispatchResp = some 200 ∨ dispatchResp = some 204)) ∧
    ((GenerateSnapshot designID assetLocation token repoOwner repoName
        workflowID dispatchResp).2 = some ErrCode.generatingSnapshot ↔
      (dispatchResp = none ∨
        ∃ s, dispatchResp = some s ∧ s ≠ 200 ∧ s ≠ 204)) ∧
    (GenerateSnapshot designID assetLocation token repoOwner repoName
        workflowID dispatchResp).2
      = (GenerateSnapshotStrict designID assetLocation token repoOwner repoName
        workflowID dispatchResp).2 := by
  have hl := generateSnapshot_dispatch_snd designID assetLocation token
    repoOwner repoName workflowID dispatchResp hoff htok
  have hr := generateSnapshotStrict_dispatch_snd designID assetLocation token
    repoOwner repoName workflowID dispatchResp htok
  obtain ⟨h1, h2⟩ := dispatchError_eq_none_iff dispatchResp
  rw [hl, hr] at *
  exact ⟨h1, h2, rfl⟩

/-- Witness for C6: a dispatch answered with 204 yields a nil error. -/
theorem generateSnapshot_error_iff_dispatch_fails_witness :
    (GenerateSnapshot "abc123" "" "ghp-token" "" "" "" (some 204)).2 = none :=
  (generateSnapshot_error_iff_dispatch_fails "abc123" "" "ghp-token" "" "" ""
    (some 204) (by decide) (by decide)).1.mpr (Or.inr rfl)

/-! ## C7: directory collection -/

lemma walkEntries_append (r : Bool) (p : String) (es₁ es₂ : List FSEntry) :
    walkEntries r p (es₁ ++ es₂) = walkEntries r p es₁ ++ walkEntries r p es₂ := by
  induction es₁ with
  | nil => simp [walkEntries]
  | cons e rest ih => cases e <;> simp [walkEntries, ih]

lemma walkEntries_false_eq_root (p : String) (es : List FSEntry) :
    walkEntries false p es = rootYamlMatches p es := by
  induction es with
  | nil => simp [walkEntries, rootYamlMatches]
  | cons e rest ih =>
    cases e with
    | file n c => simp [walkEntries, rootYamlMatches, ih]
    | dir n sub => simp [walkEntries, rootYamlMatches, ih]

lemma root_sublist_walk_true (p : String) (es : List FSEntry) :
    List.Sublist (rootYamlMatches p es) (walkEntries true p es) := by
  induction es with
  | nil => simp [walkEntries, rootYamlMatches]
  | cons e rest ih =>
    cases e with
    | file n c =>
      simp only [walkEntries, rootYamlMatches]
      exact List.Sublist.append (List.Sublist.refl _) ih
    | dir n sub =>
      simp only [walkEntries, rootYamlMatches, if_true]
      exact ih.trans (List.sublist_append_right _ _)

/-- C7.  Directory collection: with recursive unset, processDirectory
returns exactly the contents of the root-level files whose lower-cased
path ends in .yaml or .yml, in traversal order, and nested directories
are skipped without error; with recursive set, the result additionally
contains the subdirectory matches — every root-level match is still
present in order (the non-recursive result is a sublist of the
recursive one), and each directory entry contributes exactly the
recursive collection of its own subtree, in place. -/
theorem processDirectory_collects_yaml_matches
    (dirPath : String) (entries : List FSEntry) :
    processDirectory dirPath entries false = rootYamlMatches dirPath entries ∧
    List.Sublist (rootYamlMatches dirPath entries)
      (processDirectory dirPath entries true) ∧
    ∀ (pre post : List FSEntry) (d : String) (sub : List FSEntry),
      processDirectory dirPath (pre ++ FSEntry.dir d sub :: post) true =
        processDirectory dirPath pre true
          ++ processDirectory (dirPath ++ "/" ++ d) sub true
          ++ processDirectory dirPath post true := by
  refine ⟨walkEntries_false_eq_root dirPath entries,
    root_sublist_walk_true dirPath entries, ?_⟩
  intro pre post d sub
  unfold processDirectory
  rw [walkEntries_append]
  simp [walkEntries, List.append_assoc]

/-! ## C8: an empty directory traversal is an error -/

/-- C8.  When the walk of a readable directory yields zero matching
YAML files, getManifestContents fails with ErrReadingManifestFile; and
whenever getManifestContents succeeds on a directory path, the returned
manifest set is non-empty. -/
theorem getManifestContents_empty_dir_error
    (path : String) (entries : List FSEntry) (recursive : Bool) :
    (processDirectory path entries recursive = [] →
      getManifestContents path (PathKind.directory entries) recursive
        = Except.error ErrCode.readingManifestFile) ∧
    ∀ ms, getManifestContents path (PathKind.directory entries) recursive
        = Except.ok ms → ms ≠ [] := by
  constructor
  · intro h
    unfold getManifestContents
    simp [h]
  · intro ms hms
    rw [show getManifestContents path (PathKind.directory entries) recursive
        = (if (processDirectory path entries recursive).length = 0 then
            Except.error ErrCode.readingManifestFile
          else Except.ok (processDirectory path entries recursive)) from rfl] at hms
    by_cases h : (processDirectory path entries recursive).length = 0
    · rw [if_pos h] at hms
      exact absurd hms (by simp)
    · rw [if_neg h] at hms
      simp only [Except.ok.injEq] at hms
      intro hnil
      rw [hms, hnil] at h
      exact h rfl

/-- Witness for C8: an empty directory errors; a directory holding one
YAML file yields the non-empty singleton. -/
theorem getManifestContents_empty_dir_error_witness :
    getManifestContents "/manifests" (PathKind.directory []) false
      = Except.error ErrCode.readingManifestFile ∧
    (["kind: Pod"] : List String) ≠ [] := by
  constructor
  · exact (getManifestContents_empty_dir_error "/manifests" [] false).1
      (by simp [processDirectory, walkEntries])
  · exact (getManifestContents_empty_dir_error "/m"
      [FSEntry.file "a.yaml" "kind: Pod"] false).2 ["kind: Pod"]
      (by simp [getManifestContents, processDirectory, walkEntries,
        show isYamlPath "/m/a.yaml" = true from by decide])

/-! ## C10: the email regex only accepts lower-case addresses -/

lemma not_upper_of_localChar (c : Char) (h : emailLocalChar c = true) :
    isAsciiUpper c = false := by
  simp only [emailLocalChar, decide_eq_true_eq] at h
  simp only [isAsciiUpper, decide_eq_false_iff_not]
  rcases h with h | h | rfl | rfl | rfl | rfl | rfl
  · omega
  · omega
  all_goals decide

lemma not_upper_of_domainChar (c : Char) (h : emailDomainChar c = true) :
    isAsciiUpper c = false := by
  simp only [emailDomainChar, decide_eq_true_eq] at h
  simp only [isAsciiUpper, decide_eq_false_iff_not]
  rcases h with h | h | rfl | rfl
  · omega
  · omega
  all_goals decide

lemma not_upper_of_tldChar (c : Char) (h : emailTldChar c = true) :
    isAsciiUpper c = false := by
  simp only [emailTldChar, decide_eq_true_eq] at h
  simp only [isAsciiUpper, decide_eq_false_iff_not]
  omega

lemma domainTail_no_upper (ds : List Char) (h : matchDomainTail ds = true) :
    ∀ c ∈ ds, isAsciiUpper c = false := by
  intro c hc
  unfold matchDomainTail at h
  rw [List.any_eq_true] at h
  obtain ⟨i, hi, hcond⟩ := h
  rw [List.mem_range] at hi
  simp only [Bool.and_eq_true] at hcond
  obtain ⟨⟨⟨⟨hdot, _⟩, htake⟩, _⟩, hdrop⟩ := hcond
  have hdot' : ds[i] = '.' := by
    rw [List.getD_eq_getElem ds ' ' hi] at hdot
    simpa using hdot
  have hsplit : ds = ds.take i ++ ds[i] :: ds.drop (i + 1) := by
    conv_lhs => rw [← List.take_append_drop i ds]
    rw [List.drop_eq_getElem_cons hi]
  rw [hsplit] at hc
  rcases List.mem_append.mp hc with hc | hc
  · exact not_upper_of_domainChar c (List.all_eq_true.mp htake c hc)
  · rcases List.mem_cons.mp hc with rfl | hc
    · rw [hdot']
      decide
    · exact not_upper_of_tldChar c (List.all_eq_true.mp hdrop c hc)

lemma isValidEmail_no_upper (s : String) (h : isValidEmail s = true) :
    ∀ c ∈ s.data, isAsciiUpper c = false := by
  intro c hc
  simp only [isValidEmail] at h
  rcases hsplit : s.data.dropWhile (fun c => !(c == '@')) with _ | ⟨a, ds⟩
  · rw [hsplit] at h
    simp at h
  · rw [hsplit] at h
    simp only [Bool.and_eq_true] at h
    obtain ⟨⟨⟨ha, _⟩, hall⟩, hdom⟩ := h
    have ha' : a = '@' := by simpa using ha
    have hcs : s.data
        = s.data.takeWhile (fun c => !(c == '@')) ++ a :: ds := by
      conv_lhs => rw [← List.takeWhile_append_dropWhile
        (p := fun c => !(c == '@')) (l := s.data)]
      rw [hsplit]
    rw [hcs] at hc
    rcases List.mem_append.mp hc with hc | hc
    · exact not_upper_of_localChar c (List.all_eq_true.mp hall c hc)
    · rcases List.mem_cons.mp hc with rfl | hc
      · rw [ha']
        decide
      · exact domainTail_no_upper ds hdom c hc

/-- C10.  isValidEmail is the whole-string match of the all-lowercase
regex of cmd.go line 59: any address containing an ASCII uppercase
letter is rejected, while the lowercase address user@example.com of
that shape is accepted. -/
theorem isValidEmail_rejects_uppercase :
    (∀ (s : String) (c : Char), c ∈ s.data → isAsciiUpper c = true →
      isValidEmail s = false) ∧
    isValidEmail "user@example.com" = true := by
  constructor
  · intro s c hc hupper
    cases hval : isValidEmail s
    · rfl
    · have := isValidEmail_no_upper s hval c hc
      rw [hupper] at this
      exact absurd this (by simp)
  · decide

/-- Witness for C10: the uppercase address User@example.com is
rejected, by the theorem applied at its first character. -/
theorem isValidEmail_rejects_uppercase_witness :
    isValidEmail "User@example.com" = false :=
  isValidEmail_rejects_uppercase.1 "User@example.com" 'U' (by decide) (by decide)

end KanvasSnapshot
